import Mathlib

/-!
Verification of the AI Portrait Studio client (upload-validate-encode-generate
pipeline) against its natural-language specification.

The development shallowly embeds the relevant source functions:
* `handleFileValidation` and `handleFileChange` from
  src/components/ImageUploader.tsx (the Validator),
* `generatePortrait` from src/services/geminiService.ts (the Generation
  Client), including its try/catch error wrapping,
* the prompt composition expression of `handleGenerate` in src/App.tsx
  (the Prompt Composer), with JavaScript `String.prototype.trim` modelled
  over `List Char`,
* the Session Controller handlers of src/App.tsx (`handleGenerate`,
  `handleReset`, `handleDownload`) over an explicit record of the React
  state fields, with the asynchronous parts of `handleGenerate` split into
  a synchronous start phase and a continuation applied when the promise
  settles.

The style catalog and loading messages live in a constants module that is
not part of the given sources; the model is parametric in them (only their
first elements are ever read by the embedded handlers).
-/

set_option maxRecDepth 8192

namespace PortraitStudio

/-! ## Validator: src/components/ImageUploader.tsx -/

/-- The fields of a JavaScript `File` read by `handleFileValidation`:
the declared media type and the byte length. -/
structure JsFile where
  type : String
  size : Nat
deriving DecidableEq

/-- The allow-list of src/components/ImageUploader.tsx line 15. -/
def allowedTypes : List String :=
  ["image/jpeg", "image/png", "image/webp", "image/heic"]

/-- The size ceiling of src/components/ImageUploader.tsx line 20:
10 * 1024 * 1024 bytes. -/
def maxSize : Nat := 10 * 1024 * 1024

/-- `handleFileValidation` of src/components/ImageUploader.tsx.
The argument is `Option JsFile` so that the JavaScript guard
`if (!file) return false` (a falsy, absent file) is representable.
The result records the returned boolean together with the error message
passed to `setError`, if any: the absent-file branch returns `false`
without calling `setError`. -/
def handleFileValidation : Option JsFile → Bool × Option String
  | none => (false, none)
  | some f =>
    if f.type ∉ allowedTypes then
      (false, some ("Unsupported file type: " ++ f.type ++
        ". Please upload a JPEG, PNG, WEBP or HEIC image."))
    else if f.size > maxSize then
      (false, some "File size exceeds 10MB. Please upload a smaller image.")
    else
      (true, none)

/-- The observable outcome of `handleFileChange` (and of the identical
`handleDrop`) of src/components/ImageUploader.tsx. -/
inductive UploadEffect where
  /-- No call at all: neither `setError` nor `onImageSelect` runs. -/
  | noop
  /-- Validation failed; `msg` is the error message it surfaced, if any. -/
  | rejected (msg : Option String)
  /-- Validation passed: `setError(null)` then `onImageSelect(f)`. -/
  | accepted (f : JsFile)
deriving DecidableEq

/-- `handleFileChange` of src/components/ImageUploader.tsx:
`const file = event.target.files?.[0]; if (file && handleFileValidation(file))
{ setError(null); onImageSelect(file); }`.  When no file is present the
conjunction short-circuits and nothing happens at all. -/
def handleFileChange (file : Option JsFile) : UploadEffect :=
  match file with
  | none => UploadEffect.noop
  | some f =>
    if (handleFileValidation (some f)).fst then UploadEffect.accepted f
    else UploadEffect.rejected (handleFileValidation (some f)).snd

/-! ## Generation Client: src/services/geminiService.ts -/

/-- One part of the multi-part remote response; `inlineData` carries the
base64 payload when the part bears image data. -/
structure Part where
  inlineData : Option String
deriving DecidableEq

/-- The `content` object of a response candidate. -/
structure Content where
  parts : Option (List Part)
deriving DecidableEq

/-- One response candidate. -/
structure Candidate where
  content : Option Content
deriving DecidableEq

/-- The remote response object, as far as `generatePortrait` reads it. -/
structure GenResponse where
  candidates : Option (List Candidate)
deriving DecidableEq

/-- The part list scanned by `generatePortrait`:
`response.candidates?.[0]?.content?.parts || []` — every failed optional
access collapses to the empty list. -/
def responseParts (r : GenResponse) : List Part :=
  match r.candidates with
  | none => []
  | some cs =>
    match cs.head? with
    | none => []
    | some c =>
      match c.content with
      | none => []
      | some ct => ct.parts.getD []

/-- The scanning loop of src/services/geminiService.ts lines 33-37:
return the payload of the first part whose `inlineData` is present. -/
def findImagePart : List Part → Option String
  | [] => none
  | p :: ps =>
    match p.inlineData with
    | some d => some d
    | none => findImagePart ps

/-- The message of the error thrown when no part carries image data
(src/services/geminiService.ts line 40). -/
def emptyResponseMessage : String :=
  "API did not return an image. The prompt may have been blocked or the response was empty."

/-- The body of the try block of `generatePortrait`, given the remote
response: return the first inline payload, else throw the
empty-response error. -/
def extractImage (r : GenResponse) : Except String String :=
  match findImagePart (responseParts r) with
  | some d => Except.ok d
  | none => Except.error emptyResponseMessage

/-- How the awaited remote call behaves, from the caller's point of view:
either it resolves with a response object, or it throws —
`failure (some m)` is a thrown `Error` with message `m`,
`failure none` a thrown non-`Error` value. -/
inductive RemoteOutcome where
  | success (r : GenResponse)
  | failure (errMessage : Option String)
deriving DecidableEq

/-- `generatePortrait` of src/services/geminiService.ts.  Everything thrown
inside the try block — including the empty-response error thrown after completing
the scan — reaches the catch block, which rethrows an `Error` instance with a
fresh message prefixed by the fixed text; a thrown non-`Error` becomes the
fixed unknown-error message. -/
def generatePortrait : RemoteOutcome → Except String String
  | RemoteOutcome.success r =>
    match extractImage r with
    | Except.ok d => Except.ok d
    | Except.error m => Except.error ("Failed to generate portrait: " ++ m)
  | RemoteOutcome.failure (some m) =>
    Except.error ("Failed to generate portrait: " ++ m)
  | RemoteOutcome.failure none =>
    Except.error "An unknown error occurred while generating the portrait."

/-! ## Prompt Composer: src/App.tsx line 66

`const finalPrompt = \x7b...\x7d.trim()` builds `stylePrompt ++ " " ++
customPrompt` and trims whitespace from the two ends of the WHOLE string.
JavaScript `trim` is modelled over `List Char` with `Char.isWhitespace`
(the two whitespace classes agree on the ASCII inputs considered here). -/

/-- Drop leading whitespace characters, as JavaScript `trimStart`. -/
def trimLeadingWs : List Char → List Char
  | [] => []
  | c :: cs => if c.isWhitespace then trimLeadingWs cs else c :: cs

/-- Drop trailing whitespace characters, as JavaScript `trimEnd`. -/
def trimTrailingWs (l : List Char) : List Char :=
  (trimLeadingWs l.reverse).reverse

/-- JavaScript `String.prototype.trim`: drop whitespace from both ends. -/
def jsTrim (l : List Char) : List Char :=
  trimLeadingWs (trimTrailingWs l)

/-- The prompt composition of src/App.tsx line 66:
the style prompt, one space, the free text, then one outer trim. -/
def composePrompt (stylePrompt freeText : List Char) : List Char :=
  jsTrim (stylePrompt ++ ' ' :: freeText)

/-! ## Session Controller: src/App.tsx -/

/-- One entry of the style catalog (`STYLES` of the constants module). -/
structure StylePreset where
  id : String
  name : String
  description : String
  prompt : String
deriving DecidableEq

/-- The constants module is not among the given sources; the model is
parametric in the two tables `handleGenerate` and `handleReset` read. -/
structure Constants where
  STYLES : List StylePreset
  LOADING_MESSAGES : List String
deriving DecidableEq

/-- The React state fields of the `App` component, one per `useState`.
JavaScript indexing that may yield `undefined` (the default
`STYLES[0]` and `LOADING_MESSAGES[0]`) is modelled with `Option`. -/
structure AppState where
  originalFile : Option JsFile
  originalImagePreview : Option String
  generatedImage : Option String
  isLoading : Bool
  error : Option String
  loadingMessage : Option String
  selectedStyle : Option StylePreset
  customPrompt : String
  hoveredStyleDesc : Option String
deriving DecidableEq

/-- The initial values of the nine `useState` calls. -/
def initialState (C : Constants) : AppState :=
  { originalFile := none
    originalImagePreview := none
    generatedImage := none
    isLoading := false
    error := none
    loadingMessage := C.LOADING_MESSAGES.head?
    selectedStyle := C.STYLES.head?
    customPrompt := ""
    hoveredStyleDesc := none }

/-- `handleReset` of src/App.tsx: the seven setters it performs.
`loadingMessage` and `hoveredStyleDesc` are not touched by it. -/
def handleReset (C : Constants) (s : AppState) : AppState :=
  { s with
    originalFile := none
    originalImagePreview := none
    generatedImage := none
    isLoading := false
    error := none
    selectedStyle := C.STYLES.head?
    customPrompt := "" }

/-- The synchronous prefix of `handleGenerate`, run after the
`if (!originalFile) return` guard has passed: set the in-flight flag,
clear the error and the previous result, reset the loading message. -/
def handleGenerateStart (C : Constants) (s : AppState) : AppState :=
  { s with
    isLoading := true
    error := none
    generatedImage := none
    loadingMessage := C.LOADING_MESSAGES.head? }

/-- The continuation of `handleGenerate` run when its awaited work settles,
applied to whatever the state is at that time: on success store the
data-URL-prefixed payload; on a thrown `Error` store its message; on a
thrown non-`Error` store the fixed fallback message; in all cases the
finally block clears the in-flight flag. -/
def handleGenerateFinish : Except (Option String) String → AppState → AppState
  | Except.ok d, s =>
    { s with generatedImage := some ("data:image/png;base64," ++ d), isLoading := false }
  | Except.error (some m), s =>
    { s with error := some m, isLoading := false }
  | Except.error none, s =>
    { s with error := some "An unexpected error occurred.", isLoading := false }

/-- The service layer only throws `Error` instances, so a failed
`generatePortrait` call reaches the catch block of `handleGenerate` as an
`Error` carrying its message. -/
def toCaught : Except String String → Except (Option String) String
  | Except.ok d => Except.ok d
  | Except.error m => Except.error (some m)

/-- One whole run of `handleGenerate`, without interleavings: `encodeOk`
says whether `fileToBase64` resolves (its rejection value is a
`ProgressEvent`, not an `Error`, hence `Except.error none`), and `o` is the
behavior of the remote call if it is reached.  The boolean records whether
an outbound `generatePortrait` call was issued.  The one and only guard is
`if (!originalFile) return`. -/
def handleGenerateExec (C : Constants) (encodeOk : Bool) (o : RemoteOutcome)
    (s : AppState) : AppState × Bool :=
  match s.originalFile with
  | none => (s, false)
  | some _ =>
    if encodeOk then
      (handleGenerateFinish (toCaught (generatePortrait o)) (handleGenerateStart C s), true)
    else
      (handleGenerateFinish (Except.error none) (handleGenerateStart C s), false)

/-- Whether the Generate Portrait button is rendered at all: the styled
screen requires a preview, and the button block is guarded by
`!isLoading && !generatedImage` (the button additionally carries
`disabled=isLoading`). -/
def generateButtonShown (s : AppState) : Bool :=
  s.originalImagePreview.isSome && !s.isLoading && s.generatedImage.isNone

/-- The anchor element `handleDownload` clicks: its href and download name. -/
structure DownloadAction where
  href : String
  filename : String
deriving DecidableEq

/-- `handleDownload` of src/App.tsx: a no-op without a result, otherwise a
click on an anchor whose href is the stored result and whose download
attribute is the fixed name. -/
def handleDownload (s : AppState) : Option DownloadAction :=
  match s.generatedImage with
  | none => none
  | some img => some { href := img, filename := "ai_portrait.png" }

/-! ## Sample data used in concrete counterexamples and witnesses -/

/-- A sample style preset. -/
def sampleStyle : StylePreset :=
  { id := "classic", name := "Classic", description := "A classic look",
    prompt := "portrait" }

/-- A sample constants table. -/
def sampleConstants : Constants :=
  { STYLES := [sampleStyle],
    LOADING_MESSAGES := ["Analyzing your photo...", "Applying artistic style..."] }

/-- A sample valid upload. -/
def sampleFile : JsFile := { type := "image/png", size := 1024 }

/-- The canonical state during a generation attempt: a file and its preview
are present, the in-flight flag is set, no result and no error. -/
def midFlightState : AppState :=
  { originalFile := some sampleFile
    originalImagePreview := some "data:image/png;base64,AAAA"
    generatedImage := none
    isLoading := true
    error := none
    loadingMessage := some "Analyzing your photo..."
    selectedStyle := some sampleStyle
    customPrompt := ""
    hoveredStyleDesc := none }

/-- The state right before a generation attempt is triggered. -/
def previewState : AppState := { midFlightState with isLoading := false }

/-- A remote response whose single part carries no image data. -/
def noImageResponse : GenResponse :=
  { candidates := some [{ content := some { parts := some [{ inlineData := none }] } }] }

/-- A remote response whose single part carries an image payload. -/
def oneImageResponse : GenResponse :=
  { candidates := some [{ content := some { parts := some [{ inlineData := some "PAYLOAD" }] } }] }

/-- A reachable pre-retry state: a previous attempt failed after the status
message had rotated to the second loading message. -/
def failedRetryState : AppState :=
  { originalFile := some sampleFile
    originalImagePreview := some "data:image/png;base64,AAAA"
    generatedImage := none
    isLoading := false
    error := some ("Failed to generate portrait: " ++ emptyResponseMessage)
    loadingMessage := some "Applying artistic style..."
    selectedStyle := some sampleStyle
    customPrompt := "add smile"
    hoveredStyleDesc := none }

/-! ## Helper lemmas about the whitespace trimming model -/

theorem trimLeadingWs_idem (l : List Char) :
    trimLeadingWs (trimLeadingWs l) = trimLeadingWs l := by
  induction l with
  | nil => rfl
  | cons c cs ih =>
    by_cases hc : c.isWhitespace
    · simp [trimLeadingWs, hc, ih]
    · simp [trimLeadingWs, hc]

theorem trimLeadingWs_length_le (l : List Char) :
    (trimLeadingWs l).length ≤ l.length := by
  induction l with
  | nil => simp [trimLeadingWs]
  | cons c cs ih =>
    by_cases hc : c.isWhitespace
    · simp only [trimLeadingWs, hc, if_pos]
      exact Nat.le_succ_of_le ih
    · simp [trimLeadingWs, hc]

theorem trimLeadingWs_append_of_all_ws (l r : List Char)
    (h : ∀ c ∈ l, c.isWhitespace = true) :
    trimLeadingWs (l ++ r) = trimLeadingWs r := by
  induction l with
  | nil => rfl
  | cons c cs ih =>
    have hc : c.isWhitespace = true := h c (by simp)
    simp only [List.cons_append, trimLeadingWs, hc, if_pos]
    exact ih (fun x hx => h x (by simp [hx]))

theorem trimLeadingWs_append_of_has_non_ws (l r : List Char)
    (h : ∃ c ∈ l, c.isWhitespace = false) :
    trimLeadingWs (l ++ r) = trimLeadingWs l ++ r := by
  induction l with
  | nil =>
    rcases h with ⟨c, hc, _⟩
    simp at hc
  | cons c cs ih =>
    by_cases hc : c.isWhitespace
    · have hcs : ∃ x ∈ cs, x.isWhitespace = false := by
        rcases h with ⟨x, hx, hxw⟩
        rcases List.mem_cons.mp hx with rfl | hx2
        · exact absurd hc (by simp [hxw])
        · exact ⟨x, hx2, hxw⟩
      simp only [List.cons_append, trimLeadingWs, hc, if_pos]
      exact ih hcs
    · simp [trimLeadingWs, hc]

theorem trimLeadingWs_fix_head (c : Char) (cs : List Char)
    (h : trimLeadingWs (c :: cs) = c :: cs) : c.isWhitespace = false := by
  by_contra hc
  have hc2 : c.isWhitespace = true := by
    cases h2 : c.isWhitespace
    · exact absurd h2 hc
    · rfl
  have hlen := trimLeadingWs_length_le cs
  rw [show trimLeadingWs (c :: cs) = trimLeadingWs cs by simp [trimLeadingWs, hc2]] at h
  have := congrArg List.length h
  simp at this
  omega

theorem jsTrim_fix_trimLeadingWs (s : List Char) (h : jsTrim s = s) :
    trimLeadingWs s = s := by
  have h2 := congrArg trimLeadingWs h
  rw [show trimLeadingWs (jsTrim s) = jsTrim s from trimLeadingWs_idem _] at h2
  rw [h] at h2
  exact h2.symm

theorem trimTrailingWs_append_ws (s t : List Char)
    (ht : ∀ c ∈ t, c.isWhitespace = true) :
    trimTrailingWs (s ++ ' ' :: t) = trimTrailingWs s := by
  unfold trimTrailingWs
  have hrev : (s ++ ' ' :: t).reverse = (t.reverse ++ [' ']) ++ s.reverse := by
    simp
  rw [hrev, trimLeadingWs_append_of_all_ws]
  intro c hc
  rcases List.mem_append.mp hc with h1 | h2
  · exact ht c (List.mem_reverse.mp h1)
  · simp at h2
    simp [h2]

theorem trimTrailingWs_append_non_ws (s t : List Char)
    (ht : ∃ c ∈ t, c.isWhitespace = false) :
    trimTrailingWs (s ++ ' ' :: t) = s ++ ' ' :: trimTrailingWs t := by
  unfold trimTrailingWs
  have hrev : (s ++ ' ' :: t).reverse = t.reverse ++ ([' '] ++ s.reverse) := by
    simp
  rw [hrev, trimLeadingWs_append_of_has_non_ws]
  · simp
  · rcases ht with ⟨c, hc, hcw⟩
    exact ⟨c, List.mem_reverse.mpr hc, hcw⟩

/-! ## Claim C1 -/

/-- Claim C1 counterexample: in the canonical mid-flight state (in-flight
flag already true, a file selected), invoking `handleGenerate` is not a
no-op — it proceeds past its only guard and issues a second outbound call
to the Generation Client. -/
theorem claim_C1_counterexample :
    midFlightState.isLoading = true ∧
    (handleGenerateExec sampleConstants true
      (RemoteOutcome.failure (some "network error")) midFlightState).snd = true :=
  ⟨rfl, rfl⟩

/-- Claim C1 (amended): `handleGenerate` itself is not guarded by the
in-flight flag — it is a no-op exactly when no original file is selected;
re-triggering while a generation is in flight is instead prevented at the
UI layer, where the generate button is rendered only when the in-flight
flag is false (and additionally carries a disabled attribute bound to it). -/
theorem claim_C1 (C : Constants) (encodeOk : Bool) (o : RemoteOutcome)
    (s : AppState) :
    (s.originalFile = none → handleGenerateExec C encodeOk o s = (s, false)) ∧
    (generateButtonShown s = true → s.isLoading = false) := by
  constructor
  · intro h
    simp [handleGenerateExec, h]
  · intro h
    simp only [generateButtonShown, Bool.and_eq_true, Bool.not_eq_true'] at h
    exact h.1.2

/-- Claim C1 witness: the amended theorem applied at concrete inputs — with
no file selected `handleGenerate` does nothing and issues no call, and in
the concrete pre-generation state where the button is shown the in-flight
flag is false. -/
theorem claim_C1_witness :
    handleGenerateExec sampleConstants true (RemoteOutcome.failure (some "x"))
      (initialState sampleConstants) = (initialState sampleConstants, false) ∧
    previewState.isLoading = false :=
  ⟨(claim_C1 sampleConstants true (RemoteOutcome.failure (some "x"))
      (initialState sampleConstants)).1 rfl,
   (claim_C1 sampleConstants true (RemoteOutcome.failure (some "x"))
      previewState).2 rfl⟩

/-! ## Claim C2 -/

/-- Claim C2 counterexample: after a reset issued while a call is in
flight, the stale call's continuation still updates state when it
resolves — on success it writes the generated-image field of the
post-reset state. -/
theorem claim_C2_counterexample :
    handleGenerateFinish (Except.ok "STALE") (handleReset sampleConstants midFlightState) ≠
      handleReset sampleConstants midFlightState ∧
    (handleGenerateFinish (Except.ok "STALE")
      (handleReset sampleConstants midFlightState)).generatedImage =
      some "data:image/png;base64,STALE" := by
  exact ⟨by decide, rfl⟩

/-- Claim C2 (amended): a reset neither aborts nor guards the in-flight
call; when the stale call settles, its continuation is applied to the
post-reset state — on success the generated-image field is set to the
data-URL of the stale payload, and on a thrown error the error field is
set to the stale message, the in-flight flag being forced false in both
cases. -/
theorem claim_C2 (C : Constants) (s : AppState) (d m : String) :
    handleGenerateFinish (Except.ok d) (handleReset C s) =
      { handleReset C s with
        generatedImage := some ("data:image/png;base64," ++ d), isLoading := false } ∧
    handleGenerateFinish (Except.error (some m)) (handleReset C s) =
      { handleReset C s with error := some m, isLoading := false } :=
  ⟨rfl, rfl⟩

/-! ## Claim C3 -/

/-- Claim C3 counterexample: with free text carrying leading and trailing
spaces, only the outer ends of the whole composed string are trimmed, so
the free text's leading spaces survive after the inserted separator —
three spaces separate the style prompt from the trimmed words, not one;
and with empty free text a style prompt that itself has outer whitespace
comes back trimmed, not unchanged. -/
theorem claim_C3_counterexample :
    composePrompt "portrait".toList "  add smile  ".toList =
      "portrait   add smile".toList ∧
    composePrompt "portrait".toList "  add smile  ".toList ≠
      ("portrait".toList ++ ' ' :: "add smile".toList) ∧
    composePrompt " portrait ".toList "".toList = "portrait".toList ∧
    composePrompt " portrait ".toList "".toList ≠ " portrait ".toList := by
  exact ⟨by decide, by decide, by decide, by decide⟩

/-- Claim C3 (amended): for a style prompt that carries no outer
whitespace, composition with free text that is empty after trimming yields
the style prompt exactly (in particular with the empty free text), and
composition with free text containing a non-whitespace character yields
the style prompt, one inserted space, and the free text with only its
trailing whitespace removed — the free text's leading whitespace is
preserved after the inserted space. -/
theorem claim_C3 (s t : List Char) (hs : jsTrim s = s) :
    ((∀ c ∈ t, c.isWhitespace = true) → composePrompt s t = s) ∧
    (s ≠ [] → (∃ c ∈ t, c.isWhitespace = false) →
      composePrompt s t = s ++ ' ' :: trimTrailingWs t) := by
  constructor
  · intro ht
    unfold composePrompt jsTrim
    rw [show trimTrailingWs (s ++ ' ' :: t) = trimTrailingWs s from
      trimTrailingWs_append_ws s t ht]
    exact hs
  · intro hne ht
    unfold composePrompt jsTrim
    rw [trimTrailingWs_append_non_ws s t ht]
    have hfix : trimLeadingWs s = s := jsTrim_fix_trimLeadingWs s hs
    have hhead : ∃ c ∈ s, c.isWhitespace = false := by
      cases s with
      | nil => exact absurd rfl hne
      | cons c cs =>
        exact ⟨c, by simp, trimLeadingWs_fix_head c cs hfix⟩
    rw [show s ++ ' ' :: trimTrailingWs t = s ++ (' ' :: trimTrailingWs t) from rfl,
      trimLeadingWs_append_of_has_non_ws s (' ' :: trimTrailingWs t) hhead, hfix]

/-- Claim C3 witness: the amended theorem applied at the spec's own example
inputs. -/
theorem claim_C3_witness :
    composePrompt "portrait".toList "".toList = "portrait".toList ∧
    composePrompt "portrait".toList "  add smile  ".toList =
      "portrait".toList ++ ' ' :: trimTrailingWs "  add smile  ".toList :=
  ⟨(claim_C3 "portrait".toList "".toList (by decide)).1 (by decide),
   (claim_C3 "portrait".toList "  add smile  ".toList (by decide)).2
     (by decide) (by decide)⟩

/-! ## Claim C4 -/

/-- Claim C4 counterexample: when no part carries image data, the error
thrown at the scan site is re-caught by the surrounding catch block and
rethrown with a fixed prefix, so the surfaced message is not the
empty-response message verbatim. -/
theorem claim_C4_counterexample :
    generatePortrait (RemoteOutcome.success noImageResponse) =
      Except.error ("Failed to generate portrait: " ++ emptyResponseMessage) ∧
    ("Failed to generate portrait: " ++ emptyResponseMessage) ≠
      emptyResponseMessage := by
  exact ⟨rfl, by decide⟩

/-- Claim C4 (amended): when the remote response contains no part carrying
image data, `generatePortrait` fails with the empty-response message
wrapped in the fixed failed-to-generate prefix (not verbatim), and that
surfaced message still states that the prompt may have been blocked; when
the remote call itself throws an error, `generatePortrait` fails with the
same fixed prefix followed by the underlying cause text. -/
theorem claim_C4 (r : GenResponse) (m : String)
    (hr : findImagePart (responseParts r) = none) :
    (generatePortrait (RemoteOutcome.success r) =
       Except.error ("Failed to generate portrait: " ++ emptyResponseMessage) ∧
     ∃ a b, ("Failed to generate portrait: " ++ emptyResponseMessage) =
       a ++ "may have been blocked" ++ b) ∧
    generatePortrait (RemoteOutcome.failure (some m)) =
      Except.error ("Failed to generate portrait: " ++ m) := by
  refine ⟨⟨?_, ?_⟩, rfl⟩
  · simp [generatePortrait, extractImage, hr]
  · exact ⟨"Failed to generate portrait: API did not return an image. The prompt ",
      " or the response was empty.", by decide⟩

/-- Claim C4 witness: the amended theorem applied at a concrete
image-free response and a concrete transport error. -/
theorem claim_C4_witness :
    generatePortrait (RemoteOutcome.success noImageResponse) =
      Except.error ("Failed to generate portrait: " ++ emptyResponseMessage) ∧
    generatePortrait (RemoteOutcome.failure (some "network down")) =
      Except.error ("Failed to generate portrait: " ++ "network down") :=
  ⟨(claim_C4 noImageResponse "network down" rfl).1.1,
   (claim_C4 noImageResponse "network down" rfl).2⟩

/-! ## Claim C5 -/

/-- Claim C5: the validator accepts a present candidate exactly when its
declared media type is on the allow-list and its byte length is at most
10 MiB (so it rejects exactly when the type is outside the allow-list or
the size exceeds the ceiling, and an accepted candidate satisfies both
conditions), and a rejection triggered by the size check (allowed type,
size over the ceiling) surfaces the size-specific message. -/
theorem claim_C5 (f : JsFile) :
    ((handleFileValidation (some f)).fst = true ↔
      (f.type ∈ allowedTypes ∧ f.size ≤ maxSize)) ∧
    (f.type ∈ allowedTypes → maxSize < f.size →
      (handleFileValidation (some f)).snd =
        some "File size exceeds 10MB. Please upload a smaller image.") := by
  constructor
  · by_cases hT : f.type ∈ allowedTypes
    · by_cases hS : f.size > maxSize
      · simp [handleFileValidation, hT, hS]
      · simp [handleFileValidation, hT, hS]
        omega
    · simp [handleFileValidation, hT]
  · intro hT hS
    simp [handleFileValidation, hT, hS]

/-- Claim C5 witness: the theorem applied at an allowed-type candidate one
byte over the ceiling, which is rejected with the size-specific message. -/
theorem claim_C5_witness :
    (handleFileValidation (some { type := "image/png", size := 10485761 })).fst = false ∧
    (handleFileValidation (some { type := "image/png", size := 10485761 })).snd =
      some "File size exceeds 10MB. Please upload a smaller image." :=
  ⟨by decide,
   (claim_C5 { type := "image/png", size := 10485761 }).2 (by decide) (by decide)⟩

/-! ## Claim C6 -/

/-- The scanning loop returns the payload of the first image-bearing part:
parts before it that carry no image data are skipped. -/
theorem findImagePart_first (pre post : List Part) (p : Part) (d : String)
    (hpre : ∀ q ∈ pre, q.inlineData = none) (hp : p.inlineData = some d) :
    findImagePart (pre ++ p :: post) = some d := by
  induction pre with
  | nil => simp [findImagePart, hp]
  | cons q qs ih =>
    have hq : q.inlineData = none := hpre q (by simp)
    simp only [List.cons_append, findImagePart, hq]
    exact ih (fun x hx => hpre x (by simp [hx]))

/-- Claim C6: for every remote response whose ordered part list contains at
least one image-bearing part, `generatePortrait` returns the payload of
the first such part, skipping the image-free parts before it. -/
theorem claim_C6 (pre post : List Part) (p : Part) (d : String)
    (hpre : ∀ q ∈ pre, q.inlineData = none) (hp : p.inlineData = some d) :
    generatePortrait (RemoteOutcome.success
      { candidates := some [{ content := some { parts := some (pre ++ p :: post) } }] }) =
    Except.ok d := by
  have h := findImagePart_first pre post p d hpre hp
  simp [generatePortrait, extractImage, responseParts, h]

/-- Claim C6 witness: the theorem applied at a concrete three-part
response — an image-free part, then the first image-bearing part, then a
later image-bearing part that is ignored. -/
theorem claim_C6_witness :
    generatePortrait (RemoteOutcome.success
      ⟨some [⟨some ⟨some ([⟨none⟩] ++ ⟨some "IMG"⟩ :: [⟨some "OTHER"⟩])⟩⟩]⟩) =
    Except.ok "IMG" :=
  claim_C6 [⟨none⟩] [⟨some "OTHER"⟩] ⟨some "IMG"⟩ "IMG" (by decide) rfl

/-! ## Claim C7 -/

/-- Claim C7: invoking reset from any session state restores every field
it is specified to clear to its initial value — no candidate file, no
preview, no generated result, no error, the first catalog style selected,
empty free text, and the in-flight flag false. -/
theorem claim_C7 (C : Constants) (s : AppState) :
    (handleReset C s).originalFile = none ∧
    (handleReset C s).originalImagePreview = none ∧
    (handleReset C s).generatedImage = none ∧
    (handleReset C s).error = none ∧
    (handleReset C s).selectedStyle = C.STYLES.head? ∧
    (handleReset C s).customPrompt = "" ∧
    (handleReset C s).isLoading = false :=
  ⟨rfl, rfl, rfl, rfl, rfl, rfl, rfl⟩

/-! ## Claim C8 -/

/-- Claim C8 counterexample: a failing retry attempt also changes the
loading status message — a state field other than the error message and
the in-flight flag — because the start of `handleGenerate` resets it to
the first loading message. -/
theorem claim_C8_counterexample :
    generatePortrait (RemoteOutcome.success noImageResponse) =
      Except.error ("Failed to generate portrait: " ++ emptyResponseMessage) ∧
    (handleGenerateExec sampleConstants true
      (RemoteOutcome.success noImageResponse) failedRetryState).fst.loadingMessage ≠
      failedRetryState.loadingMessage := by
  exact ⟨rfl, by decide⟩

/-- Claim C8 (amended): on a generation attempt that fails, the error
message, the in-flight flag, the loading status message and the cleared
previous result may change, but the original file, its preview, the
selected style and the free-text input keep their pre-generation values,
so the user can retry with the same inputs; the attempt ends with the
failure message stored, the in-flight flag false and no result. -/
theorem claim_C8 (C : Constants) (s : AppState) (f : JsFile) (o : RemoteOutcome)
    (m : String) (hf : s.originalFile = some f)
    (ho : generatePortrait o = Except.error m) :
    ((handleGenerateExec C true o s).fst.originalFile = s.originalFile ∧
     (handleGenerateExec C true o s).fst.originalImagePreview = s.originalImagePreview ∧
     (handleGenerateExec C true o s).fst.selectedStyle = s.selectedStyle ∧
     (handleGenerateExec C true o s).fst.customPrompt = s.customPrompt) ∧
    (handleGenerateExec C true o s).fst.error = some m ∧
    (handleGenerateExec C true o s).fst.isLoading = false ∧
    (handleGenerateExec C true o s).fst.generatedImage = none := by
  simp [handleGenerateExec, hf, ho, toCaught, handleGenerateFinish, handleGenerateStart]

/-- Claim C8 witness: the amended theorem applied at the concrete
pre-generation state and a concrete transport failure. -/
theorem claim_C8_witness :
    (handleGenerateExec sampleConstants true (RemoteOutcome.failure (some "boom"))
      previewState).fst.customPrompt = previewState.customPrompt ∧
    (handleGenerateExec sampleConstants true (RemoteOutcome.failure (some "boom"))
      previewState).fst.error = some ("Failed to generate portrait: " ++ "boom") :=
  ⟨(claim_C8 sampleConstants previewState sampleFile
      (RemoteOutcome.failure (some "boom"))
      ("Failed to generate portrait: " ++ "boom") rfl rfl).1.2.2.2,
   (claim_C8 sampleConstants previewState sampleFile
      (RemoteOutcome.failure (some "boom"))
      ("Failed to generate portrait: " ++ "boom") rfl rfl).2.1⟩

/-! ## Claim C9 -/

/-- Claim C9 counterexample: an absent candidate is a silent no-op — the
change handler does nothing at all and the validator returns false without
surfacing any reason — and a zero-byte candidate of an allowed type is
accepted rather than rejected. -/
theorem claim_C9_counterexample :
    handleFileChange none = UploadEffect.noop ∧
    handleFileValidation none = (false, none) ∧
    (handleFileValidation (some { type := "image/png", size := 0 })).fst = true := by
  exact ⟨rfl, rfl, by decide⟩

/-- Claim C9 (amended): an absent candidate produces a silent no-op — the
change handler performs no action and the validator rejects it without
surfacing any reason; only a present candidate that fails validation is
rejected with a reason surfaced to the user. -/
theorem claim_C9 (f : JsFile)
    (h : (handleFileValidation (some f)).fst = false) :
    handleFileChange none = UploadEffect.noop ∧
    (handleFileValidation none).snd = none ∧
    ∃ m, (handleFileValidation (some f)).snd = some m := by
  refine ⟨rfl, rfl, ?_⟩
  by_cases hT : f.type ∈ allowedTypes
  · by_cases hS : f.size > maxSize
    · exact ⟨"File size exceeds 10MB. Please upload a smaller image.",
        by simp [handleFileValidation, hT, hS]⟩
    · exact absurd h (by simp [handleFileValidation, hT, hS])
  · exact ⟨"Unsupported file type: " ++ f.type ++
      ". Please upload a JPEG, PNG, WEBP or HEIC image.",
      by simp [handleFileValidation, hT]⟩

/-- Claim C9 witness: the amended theorem applied at a concrete rejected
candidate of a disallowed media type. -/
theorem claim_C9_witness :
    handleFileChange none = UploadEffect.noop ∧
    ∃ m, (handleFileValidation (some { type := "image/gif", size := 10 })).snd = some m :=
  ⟨(claim_C9 { type := "image/gif", size := 10 } (by decide)).1,
   (claim_C9 { type := "image/gif", size := 10 } (by decide)).2.2⟩

/-! ## Claim C10 -/

/-- Claim C10: for every successful generation attempt, whatever the
uploaded file's media type, the stored result is the returned base64
payload prefixed with the fixed PNG data-URL prefix, and the download
handler emits exactly that stored value under the fixed filename
ai_portrait.png. -/
theorem claim_C10 (C : Constants) (s : AppState) (f : JsFile) (o : RemoteOutcome)
    (d : String) (hf : s.originalFile = some f)
    (ho : generatePortrait o = Except.ok d) :
    (handleGenerateExec C true o s).fst.generatedImage =
      some ("data:image/png;base64," ++ d) ∧
    handleDownload (handleGenerateExec C true o s).fst =
      some { href := "data:image/png;base64," ++ d, filename := "ai_portrait.png" } := by
  simp [handleGenerateExec, hf, ho, toCaught, handleGenerateFinish,
    handleGenerateStart, handleDownload]

/-- Claim C10 witness: the theorem applied at the concrete pre-generation
state (whose file is declared image/png, though nothing depends on that)
and a one-image-part remote response. -/
theorem claim_C10_witness :
    (handleGenerateExec sampleConstants true (RemoteOutcome.success oneImageResponse)
      previewState).fst.generatedImage = some ("data:image/png;base64," ++ "PAYLOAD") ∧
    handleDownload (handleGenerateExec sampleConstants true
      (RemoteOutcome.success oneImageResponse) previewState).fst =
      some { href := "data:image/png;base64," ++ "PAYLOAD", filename := "ai_portrait.png" } :=
  ⟨(claim_C10 sampleConstants previewState sampleFile
      (RemoteOutcome.success oneImageResponse) "PAYLOAD" rfl rfl).1,
   (claim_C10 sampleConstants previewState sampleFile
      (RemoteOutcome.success oneImageResponse) "PAYLOAD" rfl rfl).2⟩

end PortraitStudio
